import Mathlib

/-!
Verification development for the ringo-sqlstore mapping-and-persistence engine
(src/lib/ringo/storage/sql/store.js and src/lib/ringo/storage/sql/util.js).

The JavaScript source is shallowly embedded: JDBC connections are identified by
natural numbers and every connection-touching call is recorded as an event in a
trace; the database driver (result sets, update counts, schema metadata) is an
explicit oracle structure, so each embedded operation is a pure function of its
inputs and the oracle.  Thrown JS exceptions are `Except.error` results; the
`try/finally` blocks of the source become explicit trace suffixes appended on
every branch.
-/

namespace RingoSql

/-- JavaScript runtime values as they flow through the store: SQL null /
JS `null` and `undefined` on reads are modelled by `Option` at lookup sites,
while a stored `null` is `Value.null`.  `Value.key` is a persisted Key value
(`kid = Value.null` means transient), `Value.storable` is a live Storable host
object carrying its current key id, and `Value.list` is a JS array. -/
inductive Value where
  | null : Value
  | int (n : Int) : Value
  | str (s : String) : Value
  | bool (b : Bool) : Value
  | key (ktype : String) (kid : Value) : Value
  | storable (stype : String) (sid : Value) : Value
  | list (elems : List Value) : Value

/-- True exactly on `Value.null` (JS `null`). -/
def Value.isNull : Value → Bool
  | Value.null => true
  | _ => false

/-- A database row / JS object: ordered association list from column or
property names to values, mirroring a JS object's own enumerable keys. -/
abbrev Row := List (String × Value)

/-- JS property read `obj[name]`: `none` models `undefined`. -/
def rowGet : Row → String → Option Value
  | [], _ => none
  | (k, v) :: rest, n => if k = n then some v else rowGet rest n

/-- JS property write `obj[name] = v`: replaces an existing key in place,
otherwise appends (JS insertion-order semantics). -/
def rowSet : Row → String → Value → Row
  | [], n, v => [(n, v)]
  | (k, w) :: rest, n, v =>
      if k = n then (n, v) :: rest else (k, w) :: rowSet rest n v

/-- JS test `value === null || value === undefined` on a property read. -/
def isNullish : Option Value → Bool
  | none => true
  | some Value.null => true
  | some _ => false

/-- One-level JS `toString` for non-array values (arrays render as the
comma-join of their elements' atom strings, one level deep). -/
def jsAtomString : Value → String
  | Value.null => "null"
  | Value.int n => toString n
  | Value.str s => s
  | Value.bool b => if b then "true" else "false"
  | Value.key _ _ => "[object Object]"
  | Value.storable _ _ => "[object Object]"
  | Value.list _ => ""

/-- JS string conversion as used by `StringBuffer.append`. -/
def jsToString : Value → String
  | Value.list es => String.intercalate "," (es.map jsAtomString)
  | v => jsAtomString v

/-- JS `+` of a runtime value and a number literal, as in
`dataType.get(resultSet, columnName) + offset` (store.js:267): `null`
coerces to `0`, booleans to `0`/`1`, strings concatenate. -/
def jsAdd (v : Value) (k : Int) : Value :=
  match v with
  | Value.null => Value.int k
  | Value.int n => Value.int (n + k)
  | Value.bool b => Value.int ((if b then 1 else 0) + k)
  | Value.str s => Value.str (s ++ toString k)
  | v => Value.str (jsToString v ++ toString k)

/-- Modelled from the spec: a Key (key.js is not part of src/). Spec section 3:
`{ type: string, id: integer | absent }`, absent id (JS `null`) means
*transient*, present means *persistent*. The id field holds whatever JS value
was assigned, `Value.null` playing the role of "absent". -/
structure Key where
  ktype : String
  id : Value

/-- Modelled from the spec: a Key is persistent exactly when its id is
present (non-null). -/
def Key.isPersistent (k : Key) : Bool := !k.id.isNull

/-- Connection-lifecycle events recorded by the embedding: `acquire c` is
`connectionPool.getConnection()` handing out connection `c`, `use c` is any
JDBC method invocation routed through `c` (setReadOnly, createStatement,
prepareStatement, setAutoCommit, setTransactionIsolation, getMetaData,
executeQuery/executeUpdate), `close c` is `c.close()`, and `ddl s` marks a
DDL statement `s` being sent for execution. -/
inductive ConnEvent where
  | acquire (c : Nat) : ConnEvent
  | use (c : Nat) : ConnEvent
  | close (c : Nat) : ConnEvent
  | ddl (sql : String) : ConnEvent
  deriving Repr, DecidableEq

/-- True when some `close c` event is followed (later in the trace) by a
`use c` event on the same connection: the defining symptom of a
use-after-close bug. -/
def usedAfterClose : List ConnEvent → Bool
  | [] => false
  | ConnEvent.close c :: rest =>
      rest.any (fun e => decide (e = ConnEvent.use c)) || usedAfterClose rest
  | _ :: rest => usedAfterClose rest

/-- True when the trace contains a `close c` event for connection `c`. -/
def closesConn (c : Nat) (t : List ConnEvent) : Bool :=
  t.any (fun e => decide (e = ConnEvent.close c))

/-- Number of `close c` events in the trace. -/
def countClose (c : Nat) : List ConnEvent → Nat
  | [] => 0
  | e :: rest =>
      (if e = ConnEvent.close c then 1 else 0) + countClose c rest

/-- Modelled from the spec: a dialect type handler (section 4.3; the concrete
dialect implementations under databases/ are not part of src/). `getSql`
renders the DDL type clause from length/precision/scale, `quote` quotes a
literal default, `jdbcTypeNumber` is the native type code passed to
`setNull`, and `get` reads a converted value out of a result row by column
label. Binding a value (`set`) is recorded as a `Bound` parameter instead of
being a function, since its effect lives inside the driver. -/
structure DataType where
  getSql : Option Nat → Option Nat → Option Nat → String
  needsQuotes : Bool
  quote : Value → String
  jdbcTypeNumber : Int
  get : Row → String → Value

/-- Modelled from the spec: the dialect interface the core depends on
(section 4.3). `getColumnType` returns `none` for an unmapped logical type
(JS `null`/`undefined`). -/
structure Dialect where
  quote : String → String
  getColumnType : String → Option DataType
  getColumnTypeByJdbcNumber : Int → Option DataType
  hasSequenceSupport : Bool
  getSqlNextSequenceValue : String → String
  getEngineType : Option String

/-- Modelled from the spec: one property's column mapping (mapping.js is not
part of src/; spec section 3 gives the fields). `none` models an absent or
JS-null field; a mapping-level `default: null` is normalised to `none`, since
the source tests it with `propMapping["default"] != null`. -/
structure PropertySpec where
  column : Option String
  type : Option String
  nullable : Option Bool
  length : Option Nat
  precision : Option Nat
  scale : Option Nat
  defaultVal : Option Value
  unique : Option Bool

/-- Modelled from the spec: the Mapping of one registered entity type
(section 3): table name, id column, optional sequence name, and the ordered
property name to column-spec mapping. -/
structure Mapping where
  tableName : String
  idColumnName : String
  idSequenceName : Option String
  properties : List (String × PropertySpec)

/-- Modelled from the spec: `mapping.hasIdSequence()` — the mapping declares
an explicit id sequence. -/
def Mapping.hasIdSequence (m : Mapping) : Bool := m.idSequenceName.isSome

/-- JS `property.column || propName`: the column name of a property defaults
to the property name (an empty string is falsy in JS). -/
def colOf (name : String) (p : PropertySpec) : String :=
  match p.column with
  | none => name
  | some c => if c.isEmpty then name else c

/-- A value bound into a prepared statement at one parameter position:
either `setNull` with a native type code, or a `dataType.set` of a value. -/
inductive Bound where
  | bnull (jdbcType : Int) : Bound
  | val (v : Value) : Bound

/-- A JDBC result set: column metadata (label and native type code per
column, in order) plus the rows. -/
structure ResultSet where
  cols : List (String × Int)
  rows : List Row

/-- One row of `DatabaseMetaData.getTables`, as the driver reports it. -/
structure TableMetaRow where
  name : String
  schema : String
  catalog : String
  ttype : String

/-- One converted row of `DatabaseMetaData.getColumns` (util.js getColumns);
the driver-side typed getters are external, so the oracle hands back the
converted record directly. -/
structure ColumnInfo where
  name : String
  type : Int
  length : Int
  nullable : Bool
  defaultVal : Option String
  precision : Int
  scale : Int

/-- One converted row of `DatabaseMetaData.getPrimaryKeys`
(util.js getPrimaryKeys). -/
structure PkInfo where
  name : String
  sequenceNumber : Int
  primaryKeyName : String

/-- The database driver oracle: responses of the external JDBC driver to the
statements the core sends. `executeQuery` answers a SELECT with a result set,
`executeUpdate` answers a bound prepared statement with an update count,
`executeDdl` answers a plain `Statement.executeUpdate`/`execute` of DDL, and
the three metadata fields answer `DatabaseMetaData` calls. An `Except.error`
is a thrown SQLException. -/
structure DB where
  executeQuery : String → Except String ResultSet
  executeUpdate : String → List Bound → Except String Int
  executeDdl : String → Except String Int
  tablesMeta : Except String (List TableMetaRow)
  columnsMeta : String → String → List ColumnInfo
  pksMeta : String → String → List PkInfo

/-- `String.intercalate ", "`, the shape produced by the source's
comma-separator bookkeeping when appending list items to a StringBuffer. -/
def joinComma (l : List String) : String := String.intercalate ", " l

/-! ### util.js — schema/DDL utilities -/

/-- A column definition handed to util.js createTable (the record literals
Store.prototype.createTable pushes, store.js lines 159-181): name, logical
type, nullability, size attributes and an optional default value. `none`
models a JS-absent / null field. -/
structure ColumnDef where
  name : String
  type : Option String
  nullable : Option Bool
  length : Option Nat
  precision : Option Nat
  scale : Option Nat
  defaultVal : Option Value

/-- util.js createTable, column-clause phase (lines 29-52): renders one
column as `name type [DEFAULT v] [NOT NULL]`, throwing when the dialect has
no data type for the column's logical type. -/
def columnClause (d : Dialect) (c : ColumnDef) : Except String String :=
  match c.type.bind d.getColumnType with
  | none =>
      Except.error ("Unable to determine data type, code: " ++
        (match c.type with | none => "null" | some t => t))
  | some dt =>
      let base := d.quote c.name ++ " " ++ dt.getSql c.length c.precision c.scale
      let withDefault :=
        match c.defaultVal with
        | none => base
        | some v =>
            base ++ " DEFAULT " ++
              (if dt.needsQuotes then dt.quote v else jsToString v)
      Except.ok (if c.nullable = some false then withDefault ++ " NOT NULL" else withDefault)

/-- util.js createTable, SQL-generation phase (lines 25-68): the full
`CREATE TABLE` statement — column clauses, then an optional
`PRIMARY KEY (...)` clause, then an optional storage-engine suffix. This
whole phase runs *before* the source's try/finally block. -/
def buildCreateTableSql (d : Dialect) (tableName : String)
    (columns : List ColumnDef) (primaryKey : Option (List String)) :
    Except String String :=
  match columns.mapM (columnClause d) with
  | Except.error e => Except.error e
  | Except.ok clauses =>
      let pk :=
        match primaryKey with
        | none => ""
        | some names =>
            ", PRIMARY KEY (" ++ joinComma (names.map d.quote) ++ ")"
      let engine :=
        match d.getEngineType with
        | none => ""
        | some e => " ENGINE=" ++ e
      Except.ok ("CREATE TABLE " ++ d.quote tableName ++ " (" ++
        joinComma clauses ++ pk ++ ")" ++ engine)

/-- util.js createTable (lines 24-80). The SQL is built before the
try/finally, so a type-lookup failure exits with an empty trace: the handed
connection is neither used nor closed on that path. On every path that
reaches the try block, the finally closes statement and connection. -/
def createTable (d : Dialect) (conn : Nat) (tableName : String)
    (columns : List ColumnDef) (primaryKey : Option (List String)) (db : DB) :
    Except String Int × List ConnEvent :=
  match buildCreateTableSql d tableName columns primaryKey with
  | Except.error e => (Except.error e, [])
  | Except.ok sql =>
      (db.executeDdl sql,
        [ConnEvent.use conn, ConnEvent.use conn, ConnEvent.ddl sql,
         ConnEvent.close conn])

/-- util.js createSequence (lines 82-96): issues
`CREATE SEQUENCE name START WITH 1 INCREMENT BY 1` and closes statement and
connection in its finally on both outcomes. -/
def createSequence (d : Dialect) (conn : Nat) (sequenceName : String)
    (db : DB) : Except String Int × List ConnEvent :=
  let sql := "CREATE SEQUENCE " ++ d.quote sequenceName ++
    " START WITH 1 INCREMENT BY 1"
  (db.executeDdl sql,
    [ConnEvent.use conn, ConnEvent.use conn, ConnEvent.ddl sql,
     ConnEvent.close conn])

/-- The table records util.js getTables assembles (lines 175-182). -/
structure TableRecord where
  name : String
  schema : String
  catalog : String
  ttype : String
  columns : List ColumnInfo
  primaryKeys : List PkInfo

/-- util.js getTables (lines 165-189): lists tables with their columns and
primary keys. Despite its own doc comment ("this method does not close the
connection passed as argument"), its finally block closes the connection on
both the success and the error path. -/
def getTables (conn : Nat) (db : DB) :
    Except String (List TableRecord) × List ConnEvent :=
  match db.tablesMeta with
  | Except.error e =>
      (Except.error e, [ConnEvent.use conn, ConnEvent.close conn])
  | Except.ok rows =>
      (Except.ok (rows.map (fun r =>
          { name := r.name, schema := r.schema, catalog := r.catalog,
            ttype := r.ttype, columns := db.columnsMeta r.name r.schema,
            primaryKeys := db.pksMeta r.name r.schema })),
        [ConnEvent.use conn, ConnEvent.close conn])

/-- util.js tableExists (lines 197-201): maps getTables to names and checks
membership; the connection is closed inside getTables. -/
def tableExists (conn : Nat) (tableName : String) (db : DB) :
    Except String Bool × List ConnEvent :=
  match getTables conn db with
  | (Except.error e, t) => (Except.error e, t)
  | (Except.ok recs, t) =>
      (Except.ok ((recs.map TableRecord.name).contains tableName), t)

/-- util.js drop (lines 232-250): generic `DROP <type> <name>`, closing
statement and connection in its finally on both outcomes. -/
def dropObject (d : Dialect) (conn : Nat) (typeName objectName : String)
    (schemaName : Option String) (db : DB) :
    Except String Unit × List ConnEvent :=
  let sql := "DROP " ++ typeName ++ " " ++
    (match schemaName with
     | none => ""
     | some s => d.quote s ++ ".") ++ d.quote objectName
  match db.executeDdl sql with
  | Except.error e =>
      (Except.error e,
        [ConnEvent.use conn, ConnEvent.use conn, ConnEvent.ddl sql,
         ConnEvent.close conn])
  | Except.ok _ =>
      (Except.ok (),
        [ConnEvent.use conn, ConnEvent.use conn, ConnEvent.ddl sql,
         ConnEvent.close conn])

/-- util.js dropTable (lines 209-211). -/
def dropTable (d : Dialect) (conn : Nat) (tableName : String)
    (schemaName : Option String) (db : DB) :
    Except String Unit × List ConnEvent :=
  dropObject d conn "TABLE" tableName schemaName db

/-- util.js dropSequence (lines 219-221). -/
def dropSequence (d : Dialect) (conn : Nat) (sequenceName : String)
    (schemaName : Option String) (db : DB) :
    Except String Unit × List ConnEvent :=
  dropObject d conn "SEQUENCE" sequenceName schemaName db

/-! ### store.js — the Store -/

/-- The registered entity constructor, as stored in the Store's entity
registry (the Storable host object behind `Storable.defineEntity` is
external; registration keeps the type name and its Mapping). -/
structure EntityCtor where
  ctype : String
  mapping : Mapping

/-- The Store's entity registry: type name to registered constructor,
populated once per type by defineEntity. -/
abbrev Registry := List (String × EntityCtor)

/-- Association lookup in the registry. -/
def lookupReg : Registry → String → Option EntityCtor
  | [], _ => none
  | (k, c) :: rest, n => if k = n then some c else lookupReg rest n

/-- store.js getEntityConstructor + getEntityMapping (lines 89-95, 115-117):
throws `Entity 'T' is not defined` for unregistered types. -/
def getEntityMapping (reg : Registry) (type : String) :
    Except String Mapping :=
  match lookupReg reg type with
  | none => Except.error ("Entity '" ++ type ++ "' is not defined")
  | some c => Except.ok c.mapping

/-- store.js query, per-column conversion (lines 209-218): looks up the type
handler for the column's native type code and reads the value, throwing on
an unknown code. -/
def convertRow (d : Dialect) : List (String × Int) → Row → Except String Row
  | [], _ => Except.ok []
  | (label, code) :: rest, row =>
      match d.getColumnTypeByJdbcNumber code with
      | none =>
          Except.error ("unknown data type " ++ toString code ++
            " of column " ++ label)
      | some dt =>
          match convertRow d rest row with
          | Except.error e => Except.error e
          | Except.ok tail => Except.ok ((label, dt.get row label) :: tail)

/-- store.js query, row loop (lines 207-220): converts every row. -/
def convertRows (d : Dialect) (cols : List (String × Int)) :
    List Row → Except String (List Row)
  | [] => Except.ok []
  | r :: rs =>
      match convertRow d cols r with
      | Except.error e => Except.error e
      | Except.ok cr =>
          match convertRows d cols rs with
          | Except.error e => Except.error e
          | Except.ok crs => Except.ok (cr :: crs)

/-- store.js query (lines 195-227): acquires its own connection `c`, forces
it read-only, executes the SQL, converts every column of every row through
the dialect, and closes result set, statement and connection in its finally
on success and on every error path. -/
def query (d : Dialect) (db : DB) (sql : String) (c : Nat) :
    Except String (List Row) × List ConnEvent :=
  let pre := [ConnEvent.acquire c, ConnEvent.use c, ConnEvent.use c,
    ConnEvent.use c]
  match db.executeQuery sql with
  | Except.error e => (Except.error e, pre ++ [ConnEvent.close c])
  | Except.ok rs =>
      (convertRows d rs.cols rs.rows, pre ++ [ConnEvent.close c])

/-- The `SELECT MAX(id) FROM table` statement of the generateId fallback
(store.js lines 245-247; note the table name is not quoted there). -/
def maxIdSql (d : Dialect) (m : Mapping) : String :=
  "SELECT MAX(" ++ d.quote m.idColumnName ++ ") FROM " ++ m.tableName

/-- store.js generateId (lines 236-273): with a declared sequence and
sequence support, executes the dialect's next-sequence-value SQL (offset 0);
otherwise `SELECT MAX(idColumn)` with offset 1. The single result cell is
converted through the handler for the column's native type code and the
offset is added with JS `+`. The connection acquired here is closed in the
finally on every path. -/
def generateId (reg : Registry) (d : Dialect) (type : String) (db : DB)
    (c : Nat) : Except String Value × List ConnEvent :=
  match getEntityMapping reg type with
  | Except.error e => (Except.error e, [])
  | Except.ok m =>
      let seqMode := m.hasIdSequence && d.hasSequenceSupport
      let sql :=
        if seqMode then d.getSqlNextSequenceValue (m.idSequenceName.getD "")
        else maxIdSql d m
      let offset : Int := if seqMode then 0 else 1
      let pre := [ConnEvent.acquire c, ConnEvent.use c, ConnEvent.use c]
      let post := [ConnEvent.close c]
      match db.executeQuery sql with
      | Except.error e => (Except.error e, pre ++ post)
      | Except.ok rs =>
          match rs.cols.head? with
          | none => (Except.error "no such column", pre ++ post)
          | some (label, code) =>
              match d.getColumnTypeByJdbcNumber code with
              | none =>
                  (Except.error ("unknown data type " ++ toString code ++
                    " of column " ++ label), pre ++ post)
              | some dt =>
                  match rs.rows.head? with
                  | none => (Except.error "no data is available", pre ++ post)
                  | some row =>
                      (Except.ok (jsAdd (dt.get row label) offset), pre ++ post)

/-- A collected insert/update column (the `columns` array entries of
store.js lines 430-433, 450-453, 522-525): property name plus the dialect
type handler, `none` when the dialect had no handler for the type. -/
structure InsCol where
  name : String
  dataType : Option DataType

/-- store.js insert, property-collection loop (lines 436-454): walks the
mapped properties in order, skipping a property whose value (read at its
column name) is null/undefined while its mapping declares a default, and
otherwise appending its quoted column identifier and its `columns` entry.
The accumulators start with the id column already pushed, so the
`columns.length > 0` separator test of the source is always true and the
identifier list joins with commas. -/
def insLoop (d : Dialect) (e : Row) :
    List (String × PropertySpec) → List InsCol → List String →
    List InsCol × List String
  | [], cols, idents => (cols, idents)
  | (n, p) :: rest, cols, idents =>
      let v := rowGet e (colOf n p)
      if isNullish v && p.defaultVal.isSome then
        insLoop d e rest cols idents
      else
        insLoop d e rest
          (cols ++ [{ name := n, dataType := p.type.bind d.getColumnType }])
          (idents ++ [d.quote (colOf n p)])

/-- The declarative form of the insert property filter: the mapped
properties whose value is not (null/undefined with a declared default). -/
def includedProps (e : Row) (props : List (String × PropertySpec)) :
    List (String × PropertySpec) :=
  props.filter (fun np =>
    !(isNullish (rowGet e (colOf np.1 np.2)) && np.2.defaultVal.isSome))

/-- The INSERT statement text from the collected identifiers
(store.js lines 422-456). -/
def insertSqlOf (d : Dialect) (m : Mapping) (idents : List String) : String :=
  "INSERT INTO " ++ d.quote m.tableName ++ " (" ++ joinComma idents ++
    ") VALUES (" ++ joinComma (idents.map (fun _ => "?")) ++ ")"

/-- The null-aware binding of one property value (store.js lines 479-484 and
550-555): a null/undefined entity value becomes `setNull` with the handler's
native type code, anything else is handed to `dataType.set`. -/
def bindOf (dt : DataType) (v : Option Value) : Bound :=
  match v with
  | none => Bound.bnull dt.jdbcTypeNumber
  | some Value.null => Bound.bnull dt.jdbcTypeNumber
  | some w => Bound.val w

/-- store.js insert, parameter-binding loop (lines 475-486): the column
whose name equals the id column is bound to the generated id; any other
column is bound to `entity[column.name]` — the *property* name — with
null/undefined becoming `setNull` with the handler's native type code. A
missing handler is the JS TypeError of calling into `null`. -/
def bindInsert (e : Row) (idName : String) (nid : Value) :
    List InsCol → Except String (List Bound)
  | [] => Except.ok []
  | c :: rest =>
      match c.dataType with
      | none => Except.error "TypeError: dataType is null"
      | some dt =>
          let b : Bound :=
            if c.name = idName then Bound.val nid
            else bindOf dt (rowGet e c.name)
          match bindInsert e idName nid rest with
          | Except.error er => Except.error er
          | Except.ok bs => Except.ok (b :: bs)

/-- Modelled from the spec: a Transaction (transaction.js is not part of
src/; spec section 3): one owned connection plus the inserted/updated/
deleted key accumulators. -/
structure Transaction where
  conn : Nat
  inserted : List Key
  updated : List Key
  deleted : List Key

/-- A Storable's persistent state as insert/update see it: the entity's Key
(`entity._key`) and the column-value bag. -/
structure StorableEnt where
  key : Key
  data : Row

/-- Result of an insert or update call: the JS return value or thrown error,
the entity's Key after the call, the transaction after the call, the
connection trace, and the list of ids assigned to `entity._key.id` during
the call (instrumenting the single assignment site of store.js line 492). -/
structure MutResult where
  res : Except String Int
  key : Key
  tx : Option Transaction
  trace : List ConnEvent
  assigns : List Value

/-- The connection-setup events shared by insert/update/remove
(store.js lines 462-474 etc.): with a transaction, four uses of the
transaction's connection (setTransactionIsolation, setAutoCommit,
setReadOnly, prepareStatement); without one, a fresh acquire followed by
three uses (setAutoCommit, setReadOnly, prepareStatement). -/
def connSetup (tx : Option Transaction) (own : Nat) : List ConnEvent :=
  match tx with
  | some t =>
      [ConnEvent.use t.conn, ConnEvent.use t.conn, ConnEvent.use t.conn,
       ConnEvent.use t.conn]
  | none =>
      [ConnEvent.acquire own, ConnEvent.use own, ConnEvent.use own,
       ConnEvent.use own]

/-- The connection used by insert/update/remove: the transaction's if one is
given, else the freshly acquired one. -/
def connOf (tx : Option Transaction) (own : Nat) : Nat :=
  match tx with
  | some t => t.conn
  | none => own

/-- The finally-block close events of insert/update/remove: the statement is
always closed; the connection only when no transaction was passed
(`transaction == undefined`, which in JS is also true for `null`). -/
def connTeardown (tx : Option Transaction) (own : Nat) : List ConnEvent :=
  match tx with
  | some _ => []
  | none => [ConnEvent.close own]

/-- store.js insert (lines 419-502): generates the next id on its own
connection `cGen`, collects the column list and parameter bindings, executes
the INSERT on the transaction's connection or on a freshly acquired
autocommit connection `cIns`, and only after a successful executeUpdate
pushes the entity's key into `transaction.inserted` and assigns the new id
to `entity._key.id` (the pushed key is the same mutated object, so it
carries the new id). -/
def insert (reg : Registry) (d : Dialect) (ent : StorableEnt)
    (tx : Option Transaction) (db : DB) (cGen cIns : Nat) : MutResult :=
  match getEntityMapping reg ent.key.ktype with
  | Except.error e =>
      { res := Except.error e, key := ent.key, tx := tx, trace := [],
        assigns := [] }
  | Except.ok m =>
      match generateId reg d ent.key.ktype db cGen with
      | (Except.error e, tGen) =>
          { res := Except.error e, key := ent.key, tx := tx, trace := tGen,
            assigns := [] }
      | (Except.ok nextId, tGen) =>
          match bindInsert ent.data m.idColumnName nextId
            (insLoop d ent.data m.properties
              [{ name := m.idColumnName,
                 dataType := d.getColumnType "integer" }]
              [d.quote m.idColumnName]).1 with
          | Except.error e =>
              { res := Except.error e, key := ent.key, tx := tx,
                trace := tGen ++ connSetup tx cIns ++ connTeardown tx cIns,
                assigns := [] }
          | Except.ok params =>
              match db.executeUpdate
                (insertSqlOf d m
                  (insLoop d ent.data m.properties
                    [{ name := m.idColumnName,
                       dataType := d.getColumnType "integer" }]
                    [d.quote m.idColumnName]).2) params with
              | Except.error e =>
                  { res := Except.error e, key := ent.key, tx := tx,
                    trace := tGen ++ connSetup tx cIns ++
                      [ConnEvent.use (connOf tx cIns)] ++ connTeardown tx cIns,
                    assigns := [] }
              | Except.ok n =>
                  { res := Except.ok n,
                    key := { ktype := ent.key.ktype, id := nextId },
                    tx := tx.map (fun t =>
                      { t with inserted := t.inserted ++
                        [{ ktype := ent.key.ktype, id := nextId }] }),
                    trace := tGen ++ connSetup tx cIns ++
                      [ConnEvent.use (connOf tx cIns)] ++ connTeardown tx cIns,
                    assigns := [nextId] }

/-- The UPDATE statement text (store.js lines 512-529): every mapped
property's column gets a `= ?` slot, and the WHERE clause appends the
entity's key id as a literal via JS string conversion. -/
def updateSqlOf (d : Dialect) (m : Mapping) (keyId : Value) : String :=
  "UPDATE " ++ d.quote m.tableName ++ " SET " ++
    joinComma (m.properties.map (fun np =>
      d.quote (colOf np.1 np.2) ++ " = ?")) ++
    " WHERE " ++ d.quote m.idColumnName ++ " = " ++ jsToString keyId

/-- store.js update, parameter-binding loop (lines 549-556): every column is
bound to `entity[column.name]` (the property name), null/undefined becoming
`setNull` with the handler's native type code. -/
def bindUpdate (e : Row) : List InsCol → Except String (List Bound)
  | [] => Except.ok []
  | c :: rest =>
      match c.dataType with
      | none => Except.error "TypeError: dataType is null"
      | some dt =>
          let b : Bound := bindOf dt (rowGet e c.name)
          match bindUpdate e rest with
          | Except.error er => Except.error er
          | Except.ok bs => Except.ok (b :: bs)

/-- store.js update (lines 509-570): builds `UPDATE … SET every mapped
property WHERE id = key id`, executes on the transaction's connection or a
fresh autocommit one, and on success pushes the entity's key into
`transaction.updated`. The entity's Key is never assigned to. -/
def update (reg : Registry) (d : Dialect) (ent : StorableEnt)
    (tx : Option Transaction) (db : DB) (cUpd : Nat) : MutResult :=
  match getEntityMapping reg ent.key.ktype with
  | Except.error e =>
      { res := Except.error e, key := ent.key, tx := tx, trace := [],
        assigns := [] }
  | Except.ok m =>
      match bindUpdate ent.data (m.properties.map (fun np =>
        { name := np.1, dataType := np.2.type.bind d.getColumnType })) with
      | Except.error e =>
          { res := Except.error e, key := ent.key, tx := tx,
            trace := connSetup tx cUpd ++ connTeardown tx cUpd, assigns := [] }
      | Except.ok params =>
          match db.executeUpdate (updateSqlOf d m ent.key.id) params with
          | Except.error e =>
              { res := Except.error e, key := ent.key, tx := tx,
                trace := connSetup tx cUpd ++
                  [ConnEvent.use (connOf tx cUpd)] ++ connTeardown tx cUpd,
                assigns := [] }
          | Except.ok n =>
              { res := Except.ok n, key := ent.key,
                tx := tx.map (fun t =>
                  { t with updated := t.updated ++ [ent.key] }),
                trace := connSetup tx cUpd ++
                  [ConnEvent.use (connOf tx cUpd)] ++ connTeardown tx cUpd,
                assigns := [] }

/-- Result of a remove call: JS return value or thrown error, the
transaction after the call, and the connection trace. -/
structure RemResult where
  res : Except String Int
  tx : Option Transaction
  trace : List ConnEvent

/-- The DELETE statement text (store.js lines 347-349). -/
def removeSqlOf (d : Dialect) (m : Mapping) : String :=
  "DELETE FROM " ++ d.quote m.tableName ++ " WHERE " ++
    d.quote m.idColumnName ++ " = ?"

/-- store.js remove (lines 345-381): parameterized DELETE by key id,
executed on the transaction's connection or a fresh autocommit one; on
success the key is pushed into `transaction.deleted`. -/
def remove (reg : Registry) (d : Dialect) (key : Key)
    (tx : Option Transaction) (db : DB) (cRem : Nat) : RemResult :=
  match getEntityMapping reg key.ktype with
  | Except.error e => { res := Except.error e, tx := tx, trace := [] }
  | Except.ok m =>
      match d.getColumnType "integer" with
      | none =>
          { res := Except.error "TypeError: dataType is null", tx := tx,
            trace := connSetup tx cRem ++ connTeardown tx cRem }
      | some _ =>
          match db.executeUpdate (removeSqlOf d m) [Bound.val key.id] with
          | Except.error e =>
              { res := Except.error e, tx := tx,
                trace := connSetup tx cRem ++
                  [ConnEvent.use (connOf tx cRem)] ++ connTeardown tx cRem }
          | Except.ok n =>
              { res := Except.ok n,
                tx := tx.map (fun t =>
                  { t with deleted := t.deleted ++ [key] }),
                trace := connSetup tx cRem ++
                  [ConnEvent.use (connOf tx cRem)] ++ connTeardown tx cRem }

/-- The `SELECT * … WHERE id = <literal>` text of loadEntity
(store.js lines 623-626). -/
def loadSqlOf (d : Dialect) (m : Mapping) (id : Int) : String :=
  "SELECT * FROM " ++ d.quote m.tableName ++ " WHERE " ++
    d.quote m.idColumnName ++ " = " ++ toString id

/-- store.js loadEntity (lines 621-641): id-filtered SELECT through query;
more than one row is the integrity error `Multiple rows returned by query`,
exactly one row returns the entity with a persistent Key `{type, id}`
attached as `_key`, zero rows return JS null (`none` here). -/
def loadEntity (reg : Registry) (d : Dialect) (db : DB) (type : String)
    (id : Int) (c : Nat) : Except String (Option (Row × Key)) × List ConnEvent :=
  match getEntityMapping reg type with
  | Except.error e => (Except.error e, [])
  | Except.ok m =>
      match query d db (loadSqlOf d m id) c with
      | (Except.error e, t) => (Except.error e, t)
      | (Except.ok rows, t) =>
          if rows.length > 1 then
            (Except.error "Multiple rows returned by query", t)
          else
            match rows with
            | [r] =>
                (Except.ok (some (r, { ktype := type, id := Value.int id })), t)
            | _ => (Except.ok none, t)

/-- The `SELECT id … WHERE id = <literal>` text of isEntityExisting
(store.js lines 652-656). -/
def existsSqlOf (d : Dialect) (m : Mapping) (id : Int) : String :=
  "SELECT " ++ d.quote m.idColumnName ++ " FROM " ++ d.quote m.tableName ++
    " WHERE " ++ d.quote m.idColumnName ++ " = " ++ toString id

/-- store.js isEntityExisting (lines 650-664): same query shape restricted
to the id column; more than one row is the integrity error, otherwise the
result is whether exactly one row matched. -/
def isEntityExisting (reg : Registry) (d : Dialect) (db : DB) (type : String)
    (id : Int) (c : Nat) : Except String Bool × List ConnEvent :=
  match getEntityMapping reg type with
  | Except.error e => (Except.error e, [])
  | Except.ok m =>
      match query d db (existsSqlOf d m id) c with
      | (Except.error e, t) => (Except.error e, t)
      | (Except.ok rows, t) =>
          if rows.length > 1 then
            (Except.error "Multiple rows returned by query", t)
          else (Except.ok (rows.length = 1), t)

/-- Modelled from the spec: the effect of the recursive `value.save()` on a
nested Storable (the Storable host object lives in org.ringojs.wrappers and
is not part of src/). The oracle maps a storable (its type and current key
id) to the Key it carries after being persisted. -/
abbrev SaveOracle := String → Value → Key

/-- store.js updateEntity, per-value resolution (lines 395-408): a Storable
value is saved and replaced by its `_key`; an Array value is mapped one
level, replacing each Storable element by its `_key`; anything else is
assigned unchanged. -/
def resolveOne (saveFn : SaveOracle) : Value → Value
  | Value.storable st si =>
      let k := saveFn st si
      Value.key k.ktype k.id
  | Value.list elems =>
      Value.list (elems.map (fun o =>
        match o with
        | Value.storable st si =>
            let k := saveFn st si
            Value.key k.ktype k.id
        | other => other))
  | other => other

/-- The storables persisted while resolving one property value, in
encounter order (instrumenting the `value.save()` / `obj.save()` calls of
store.js lines 397, 402). -/
def savedOf : Value → List (String × Value)
  | Value.storable st si => [(st, si)]
  | Value.list elems =>
      elems.foldr (fun o acc =>
        match o with
        | Value.storable st si => (st, si) :: acc
        | _ => acc) []
  | _ => []

/-- store.js updateEntity (lines 390-412): walks the caller-visible
properties in order, persists nested storables, and writes the resolved
value into the entity under the property name. Returns the updated entity
and the ordered list of storables persisted. (The source always returns
`true`, so `save` always dispatches.) -/
def updateEntity (saveFn : SaveOracle) (properties : List (String × Value))
    (entity : Row) : Row × List (String × Value) :=
  properties.foldl (fun acc np =>
    (rowSet acc.1 np.1 (resolveOne saveFn np.2), acc.2 ++ savedOf np.2))
    (entity, [])

/-- The entity component of updateEntity in isolation: the sequential
property writes without the saved-storables instrumentation. -/
def applyProps (saveFn : SaveOracle) (properties : List (String × Value))
    (entity : Row) : Row :=
  properties.foldl (fun acc np =>
    rowSet acc np.1 (resolveOne saveFn np.2)) entity

/-- The storables persisted across all properties, in encounter order. -/
def savedAll (properties : List (String × Value)) : List (String × Value) :=
  properties.foldr (fun np acc => savedOf np.2 ++ acc) []

/-- store.js save (lines 578-587): resolves nested persistables via
updateEntity, then dispatches to update when the entity's Key is persistent
and to insert when it is transient. -/
def save (saveFn : SaveOracle) (reg : Registry) (d : Dialect)
    (properties : List (String × Value)) (ent : StorableEnt)
    (tx : Option Transaction) (db : DB) (cGen cOwn : Nat) : MutResult :=
  let ent' : StorableEnt :=
    { ent with data := (updateEntity saveFn properties ent.data).1 }
  if ent.key.isPersistent then update reg d ent' tx db cOwn
  else insert reg d ent' tx db cGen cOwn

/-- store.js Store.prototype.createTable, column-assembly phase
(lines 153-187): an integer NOT NULL id column first, then one ColumnDef
per mapped property (throwing on a property without a data type), with the
primary key being the id column plus every property marked unique. -/
def buildStoreColumns (m : Mapping) :
    Except String (List ColumnDef × List String) :=
  let idCol : ColumnDef :=
    { name := m.idColumnName, type := some "integer",
      nullable := some false, length := none, precision := none,
      scale := none, defaultVal := none }
  let rec go : List (String × PropertySpec) →
      Except String (List ColumnDef × List String)
    | [] => Except.ok ([], [])
    | (n, p) :: rest =>
        match p.type with
        | none =>
            Except.error
              ("Store.createOrUpdateTable: missing data type definition for property "
                ++ n)
        | some _ =>
            match go rest with
            | Except.error e => Except.error e
            | Except.ok (cols, pks) =>
                Except.ok
                  ({ name := colOf n p, type := p.type,
                     nullable := p.nullable, length := p.length,
                     precision := p.precision, scale := p.scale,
                     defaultVal := p.defaultVal } :: cols,
                   (if p.unique = some true then [colOf n p] else []) ++ pks)
  match go m.properties with
  | Except.error e => Except.error e
  | Except.ok (cols, pks) =>
      Except.ok (idCol :: cols, m.idColumnName :: pks)

/-- store.js Store.prototype.createTable (lines 153-187): assembles the
column definitions from the mapping and delegates to util.js createTable on
the connection it was handed. -/
def storeCreateTable (d : Dialect) (conn : Nat) (m : Mapping) (db : DB) :
    Except String Int × List ConnEvent :=
  match buildStoreColumns m with
  | Except.error e => (Except.error e, [])
  | Except.ok (cols, pks) => createTable d conn m.tableName cols (some pks) db

/-- Result of a defineEntity call: the returned constructor or thrown
error, the registry after the call (the source registers the constructor
*before* any DDL, so a failed table creation still leaves it registered),
and the connection trace. -/
structure DefineResult where
  res : Except String EntityCtor
  reg : Registry
  trace : List ConnEvent

/-- store.js defineEntity (lines 63-81): an already-registered type returns
the existing constructor with no connection activity and no DDL. A fresh
type is registered, one connection is acquired and handed to tableExists
(whose getTables closes it); when the table is missing the *same* connection
is then handed on to Store.createTable and, for a sequence-backed mapping on
a sequence-capable dialect, to createSequence — each of which uses and
closes it again. -/
def defineEntity (reg : Registry) (d : Dialect) (type : String) (m : Mapping)
    (db : DB) (c : Nat) : DefineResult :=
  match lookupReg reg type with
  | some ctor => { res := Except.ok ctor, reg := reg, trace := [] }
  | none =>
      let ctor : EntityCtor := { ctype := type, mapping := m }
      let reg' := reg ++ [(type, ctor)]
      let acq := [ConnEvent.acquire c]
      match tableExists c m.tableName db with
      | (Except.error e, t) => { res := Except.error e, reg := reg', trace := acq ++ t }
      | (Except.ok true, t) => { res := Except.ok ctor, reg := reg', trace := acq ++ t }
      | (Except.ok false, t) =>
          match storeCreateTable d c m db with
          | (Except.error e, t2) =>
              { res := Except.error e, reg := reg', trace := acq ++ t ++ t2 }
          | (Except.ok _, t2) =>
              if m.hasIdSequence && d.hasSequenceSupport then
                match createSequence d c (m.idSequenceName.getD "") db with
                | (Except.error e, t3) =>
                    { res := Except.error e, reg := reg',
                      trace := acq ++ t ++ t2 ++ t3 }
                | (Except.ok _, t3) =>
                    { res := Except.ok ctor, reg := reg',
                      trace := acq ++ t ++ t2 ++ t3 }
              else
                { res := Except.ok ctor, reg := reg', trace := acq ++ t ++ t2 }

/-! ### Concrete reference instances (for witnesses and harnesses) -/

/-- Modelled from the spec: a reference integer type handler (section 4.3),
with JDBC getInt read semantics — a SQL NULL cell (and an absent column)
reads as 0, native type code 4 (java.sql.Types.INTEGER). -/
def intHandler : DataType :=
  { getSql := fun _ _ _ => "INTEGER",
    needsQuotes := false,
    quote := fun v => jsToString v,
    jdbcTypeNumber := 4,
    get := fun row label =>
      match rowGet row label with
      | some (Value.int n) => Value.int n
      | _ => Value.int 0 }

/-- Modelled from the spec: a reference string type handler (section 4.3),
native type code 12 (java.sql.Types.VARCHAR). -/
def strHandler : DataType :=
  { getSql := fun len _ _ => "VARCHAR(" ++ toString (len.getD 255) ++ ")",
    needsQuotes := true,
    quote := fun v => "'" ++ jsToString v ++ "'",
    jdbcTypeNumber := 12,
    get := fun row label => (rowGet row label).getD Value.null }

/-- Modelled from the spec: a reference dialect (section 4.3) knowing the
logical types `integer` and `string`, double-quoting identifiers, with
configurable sequence support. -/
def mkDialect (seqSupport : Bool) : Dialect :=
  { quote := fun s => "\"" ++ s ++ "\"",
    getColumnType := fun t =>
      if t = "integer" then some intHandler
      else if t = "string" then some strHandler
      else none,
    getColumnTypeByJdbcNumber := fun code =>
      if code = 4 then some intHandler
      else if code = 12 then some strHandler
      else none,
    hasSequenceSupport := seqSupport,
    getSqlNextSequenceValue := fun name =>
      "SELECT NEXT VALUE FOR " ++ name,
    getEngineType := none }

/-- A driver oracle with an empty schema that accepts every statement. -/
def trivialDb : DB :=
  { executeQuery := fun _ => Except.ok { cols := [], rows := [] },
    executeUpdate := fun _ _ => Except.ok 1,
    executeDdl := fun _ => Except.ok 0,
    tablesMeta := Except.ok [],
    columnsMeta := fun _ _ => [],
    pksMeta := fun _ _ => [] }

/-- A property spec with only a type, everything else absent. -/
def plainProp (t : String) : PropertySpec :=
  { column := none, type := some t, nullable := none, length := none,
    precision := none, scale := none, defaultVal := none, unique := none }

/-- A sample mapping without an id sequence: table `person`, id column
`id`, one string property `name`. -/
def mPerson : Mapping :=
  { tableName := "person", idColumnName := "id", idSequenceName := none,
    properties := [("name", plainProp "string")] }

/-- A registry holding just the `Person` registration. -/
def regPerson : Registry :=
  [("Person", { ctype := "Person", mapping := mPerson })]

/-! ### Single-writer fallback-id harness (for generateId) -/

/-- The SQL `MAX` aggregate a conforming database computes for the id
column: SQL NULL on an empty table, else the greatest id. -/
def sqlMaxCell : List Int → Value
  | [] => Value.null
  | x :: xs => Value.int (xs.foldl max x)

/-- A driver oracle over a table holding the given ids, answering exactly
the fallback `SELECT MAX("id") FROM person` statement of generateId with a
single-cell result labelled `M` of native type code 4. -/
def tableDb (table : List Int) : DB :=
  { trivialDb with
    executeQuery := fun sql =>
      if sql = maxIdSql (mkDialect false) mPerson then
        Except.ok { cols := [("M", 4)], rows := [[("M", sqlMaxCell table)]] }
      else Except.error "unexpected statement" }

/-- The id the generateId fallback hands out over a table with the given
ids: `MAX + 1`, where the JDBC integer read of the empty table's NULL is 0. -/
def nextFallbackId (table : List Int) : Int :=
  (match table with
   | [] => 0
   | x :: xs => xs.foldl max x) + 1

/-- The table contents after N single-writer inserts that each allocate
their id through the generateId fallback and append the row. -/
def iterIds : Nat → List Int
  | 0 => []
  | n + 1 => iterIds n ++ [nextFallbackId (iterIds n)]

/-! ### Further concrete fixtures for witnesses and counterexamples -/

/-- A column definition whose logical type `bogus` no dialect knows. -/
def bogusCol : ColumnDef :=
  { name := "x", type := some "bogus", nullable := none, length := none,
    precision := none, scale := none, defaultVal := none }

/-- A driver oracle answering every SELECT with the single Person row
`{id: 1, name: "Ann"}` (column codes 4 and 12). -/
def onePersonDb : DB :=
  { trivialDb with
    executeQuery := fun _ =>
      Except.ok
        { cols := [("id", 4), ("name", 12)],
          rows := [[("id", Value.int 1), ("name", Value.str "Ann")]] } }

/-- A property-less mapping onto table `t` with id column `id`. -/
def mBare : Mapping :=
  { tableName := "t", idColumnName := "id", idSequenceName := none,
    properties := [] }

/-- A registry holding just the bare `T` registration. -/
def regBare : Registry := [("T", { ctype := "T", mapping := mBare })]

/-- A driver oracle answering every SELECT with a single integer cell 7
labelled `M` (the shape of a `MAX` aggregate over a 7-row table). -/
def maxDb7 : DB :=
  { trivialDb with
    executeQuery := fun _ =>
      Except.ok { cols := [("M", 4)], rows := [[("M", Value.int 7)]] } }

/-- An entity of type `T` whose key is already persistent with id 5. -/
def entPersistent : StorableEnt :=
  { key := { ktype := "T", id := Value.int 5 }, data := [] }

/-- An entity of type `T` whose key is still transient. -/
def entTransient : StorableEnt :=
  { key := { ktype := "T", id := Value.null }, data := [] }

/-- A sequence-backed mapping onto table `evt`. -/
def mSeq : Mapping :=
  { tableName := "evt", idColumnName := "id",
    idSequenceName := some "evt_id", properties := [] }

/-- A registry holding just the sequence-backed `Evt` registration. -/
def regSeq : Registry := [("Evt", { ctype := "Evt", mapping := mSeq })]

/-- A driver oracle answering every SELECT with the single integer cell 42
(the shape of a next-sequence-value result). -/
def seqDb : DB :=
  { trivialDb with
    executeQuery := fun _ =>
      Except.ok { cols := [("SEQ", 4)], rows := [[("SEQ", Value.int 42)]] } }

/-- A save oracle for witnesses: persisting any storable yields a key of
the storable's own type with id 9. -/
def saveFn9 : SaveOracle := fun st _ => { ktype := st, id := Value.int 9 }

/-- A transaction fixture owning connection 3 with empty accumulators. -/
def tx3 : Transaction :=
  { conn := 3, inserted := [], updated := [], deleted := [] }

/-- A string property that declares a default value. -/
def propWithDefault : PropertySpec :=
  { column := none, type := some "string", nullable := none, length := none,
    precision := none, scale := none, defaultVal := some (Value.str "n/a"),
    unique := none }

/-- A mapping with one plain property and one defaulted property. -/
def mMix : Mapping :=
  { tableName := "doc", idColumnName := "id", idSequenceName := none,
    properties := [("title", plainProp "string"),
      ("note", propWithDefault)] }

/-- An entity supplying only `title`: `note` is absent and defaulted, so
insert must omit it. -/
def eMix : Row := [("title", Value.str "T1")]

/-- A property bag with one nested storable and one plain value. -/
def propsAB : List (String × Value) :=
  [("a", Value.storable "S" Value.null), ("b", Value.int 2)]

/-- A driver oracle whose prepared-statement execution always throws, while
queries still answer like maxDb7 (so id generation succeeds first). -/
def failDb : DB :=
  { maxDb7 with executeUpdate := fun _ _ => Except.error "boom" }

/-- The key of the persistent fixture entity, as a standalone value. -/
def key5 : Key := { ktype := "T", id := Value.int 5 }

/-! ## Helper lemmas -/

/-- util.js getTables closes the connection it is handed on both of its
exit paths (its finally block), despite its own doc comment. -/
theorem getTables_closes (conn : Nat) (db : DB) :
    closesConn conn (getTables conn db).2 = true := by
  unfold getTables
  cases db.tablesMeta <;> simp [closesConn]

/-- util.js drop closes the connection on both outcomes of the execution. -/
theorem dropObject_closes (d : Dialect) (conn : Nat)
    (typeName objectName : String) (schemaName : Option String) (db : DB) :
    closesConn conn (dropObject d conn typeName objectName schemaName db).2 = true := by
  unfold dropObject
  split <;> simp only [closesConn] <;> split <;> simp

/-! ## Claim theorems -/

/-- C6: defineEntity is idempotent per type name — with the type already
registered, the call returns the existing constructor unchanged, leaves the
registry as it was, and produces no connection activity and no DDL at all
(the empty trace contains no `ddl` event, hence no second CREATE TABLE and
no CREATE SEQUENCE). -/
theorem defineEntity_idempotent (reg : Registry) (d : Dialect)
    (type : String) (m : Mapping) (db : DB) (c : Nat) (ctor : EntityCtor)
    (h : lookupReg reg type = some ctor) :
    defineEntity reg d type m db c =
      { res := Except.ok ctor, reg := reg, trace := [] } := by
  unfold defineEntity
  rw [h]

/-- Witness for C6 at a concrete registry: re-defining the already
registered `Person` returns the stored constructor with empty trace. -/
theorem defineEntity_idempotent_witness :
    lookupReg regPerson "Person" =
      some { ctype := "Person", mapping := mPerson } ∧
    defineEntity regPerson (mkDialect false) "Person" mPerson trivialDb 0 =
      { res := Except.ok { ctype := "Person", mapping := mPerson },
        reg := regPerson, trace := [] } :=
  ⟨rfl, defineEntity_idempotent regPerson (mkDialect false) "Person" mPerson
    trivialDb 0 { ctype := "Person", mapping := mPerson } rfl⟩

/-- C8 (amended): every schema/DDL utility closes the connection it is
handed on every exit path of its statement phase — createSequence,
getTables, tableExists, dropTable and dropSequence unconditionally, and
createTable on every path on which its SQL-generation phase (which the
source runs *before* the try/finally) succeeded. The excluded createTable
path is exhibited by the counterexample theorem. -/
theorem ddl_utils_close_connection :
    (∀ (d : Dialect) (conn : Nat) (tn : String) (cols : List ColumnDef)
        (pk : Option (List String)) (db : DB) (sql : String),
      buildCreateTableSql d tn cols pk = Except.ok sql →
      closesConn conn (createTable d conn tn cols pk db).2 = true)
    ∧ (∀ (d : Dialect) (conn : Nat) (name : String) (db : DB),
      closesConn conn (createSequence d conn name db).2 = true)
    ∧ (∀ (conn : Nat) (db : DB),
      closesConn conn (getTables conn db).2 = true)
    ∧ (∀ (conn : Nat) (tn : String) (db : DB),
      closesConn conn (tableExists conn tn db).2 = true)
    ∧ (∀ (d : Dialect) (conn : Nat) (tn : String) (sn : Option String)
        (db : DB), closesConn conn (dropTable d conn tn sn db).2 = true)
    ∧ (∀ (d : Dialect) (conn : Nat) (sq : String) (sn : Option String)
        (db : DB), closesConn conn (dropSequence d conn sq sn db).2 = true) := by
  refine ⟨?_, ?_, ?_, ?_, ?_, ?_⟩
  · intro d conn tn cols pk db sql h
    unfold createTable
    rw [h]
    simp [closesConn]
  · intro d conn name db
    simp [createSequence, closesConn]
  · intro conn db
    exact getTables_closes conn db
  · intro conn tn db
    have hg := getTables_closes conn db
    unfold tableExists
    rcases hgt : getTables conn db with ⟨r, t⟩
    rw [hgt] at hg
    cases r <;> simpa using hg
  · intro d conn tn sn db
    exact dropObject_closes d conn "TABLE" tn sn db
  · intro d conn sq sn db
    exact dropObject_closes d conn "SEQUENCE" sq sn db

/-- Witness for C8: the amended close-on-exit facts evaluated at concrete
inputs, discharging the SQL-generation hypothesis for createTable. -/
theorem ddl_utils_close_connection_witness :
    closesConn 7 (createTable (mkDialect false) 7 "person"
      [{ name := "id", type := some "integer", nullable := some false,
         length := none, precision := none, scale := none,
         defaultVal := none }] (some ["id"]) trivialDb).2 = true ∧
    closesConn 7 (createSequence (mkDialect false) 7 "s" trivialDb).2 = true ∧
    closesConn 7 (tableExists 7 "person" trivialDb).2 = true ∧
    closesConn 7 (dropTable (mkDialect false) 7 "person" none trivialDb).2 = true := by
  refine ⟨?_, ?_, ?_, ?_⟩
  · exact ddl_utils_close_connection.1 (mkDialect false) 7 "person" _ _
      trivialDb _ rfl
  · exact ddl_utils_close_connection.2.1 (mkDialect false) 7 "s" trivialDb
  · exact ddl_utils_close_connection.2.2.2.1 7 "person" trivialDb
  · exact ddl_utils_close_connection.2.2.2.2.1 (mkDialect false) 7 "person"
      none trivialDb

/-- Counterexample for C8 as stated: when a column's logical type is unknown
to the dialect, util.js createTable throws from its SQL-generation phase
*before* entering the try/finally, so the handed connection is never
closed — the trace holds no close event at all. -/
theorem createTable_skips_close_on_type_error :
    (createTable (mkDialect false) 7 "t" [bogusCol] none trivialDb).1 =
      Except.error "Unable to determine data type, code: bogus" ∧
    closesConn 7
      (createTable (mkDialect false) 7 "t" [bogusCol] none trivialDb).2 = false :=
  ⟨rfl, rfl⟩

/-- C1 (code bug): defineEntity on a fresh type whose table does not exist
acquires one connection, which tableExists/getTables *closes* (contradicting
getTables' own doc comment), and then hands the closed connection on to
createTable, which uses it again and closes it a second time — the trace
shows a use-after-close and two closes of connection 0, violating the
scoped-acquisition contract. -/
theorem defineEntity_reuses_closed_connection :
    usedAfterClose
      (defineEntity [] (mkDialect false) "Person" mPerson trivialDb 0).trace = true ∧
    countClose 0
      (defineEntity [] (mkDialect false) "Person" mPerson trivialDb 0).trace = 2 :=
  ⟨rfl, rfl⟩

/-- C4: loadEntity trichotomy on the number of rows the id-filtered SELECT
returns (after dialect conversion): more than one row raises the integrity
error `Multiple rows returned by query`; exactly one row yields the entity
with the persistent Key `{type, id}` attached; zero rows yield JS null, not
an error. -/
theorem loadEntity_row_count_trichotomy (reg : Registry) (d : Dialect)
    (db : DB) (type : String) (id : Int) (c : Nat) (m : Mapping)
    (rs : ResultSet) (rows : List Row)
    (hm : getEntityMapping reg type = Except.ok m)
    (hq : db.executeQuery (loadSqlOf d m id) = Except.ok rs)
    (hc : convertRows d rs.cols rs.rows = Except.ok rows) :
    (1 < rows.length →
      (loadEntity reg d db type id c).1 =
        Except.error "Multiple rows returned by query")
    ∧ (∀ r, rows = [r] →
      (loadEntity reg d db type id c).1 =
        Except.ok (some (r, { ktype := type, id := Value.int id })))
    ∧ (rows = [] → (loadEntity reg d db type id c).1 = Except.ok none) := by
  simp only [loadEntity, query, hm, hq, hc]
  refine ⟨?_, ?_, ?_⟩
  · intro h
    simp [h]
  · intro r hr
    subst hr
    simp
  · intro hr
    subst hr
    simp

/-- Witness for C4: with the driver returning exactly the row
`{id: 1, name: "Ann"}`, loadEntity returns it with the persistent Key
`{Person, 1}` attached. -/
theorem loadEntity_row_count_trichotomy_witness :
    (loadEntity regPerson (mkDialect false) onePersonDb "Person" 1 0).1 =
      Except.ok (some ([("id", Value.int 1), ("name", Value.str "Ann")],
        { ktype := "Person", id := Value.int 1 })) :=
  (loadEntity_row_count_trichotomy regPerson (mkDialect false) onePersonDb
    "Person" 1 0 mPerson
    { cols := [("id", 4), ("name", 12)],
      rows := [[("id", Value.int 1), ("name", Value.str "Ann")]] }
    [[("id", Value.int 1), ("name", Value.str "Ann")]]
    rfl rfl rfl).2.1 _ rfl

/-- The generateId fallback over the single-writer table oracle returns
`MAX(id) + 1`, the JDBC integer read of the empty table's NULL being 0. -/
theorem generateId_tableDb (t : List Int) :
    (generateId regPerson (mkDialect false) "Person" (tableDb t) 0).1 =
      Except.ok (Value.int (nextFallbackId t)) := by
  cases t with
  | nil => rfl
  | cons x xs => rfl

/-- After N single-writer fallback-allocated inserts the next fallback id
is N + 1. -/
theorem nextFallbackId_iterIds (n : Nat) :
    nextFallbackId (iterIds n) = (n : Int) + 1 := by
  induction n with
  | zero => rfl
  | succ n ih =>
      show nextFallbackId (iterIds n ++ [nextFallbackId (iterIds n)]) = _
      rw [ih]
      rcases h : iterIds n with _ | ⟨y, ys⟩
      · simp only [nextFallbackId, List.nil_append, List.foldl_nil]
        push_cast
        omega
      · rw [h] at ih
        have hmax : ys.foldl max y = (n : Int) := by
          simp only [nextFallbackId] at ih
          omega
        simp only [nextFallbackId, List.cons_append, List.foldl_cons,
          List.foldl_append, List.foldl_nil, hmax]
        push_cast
        omega

/-- C2: generateId's dual strategy. (a) With a declared sequence on a
sequence-capable dialect, generateId executes the dialect's
next-sequence-value SQL and returns the converted single result cell
(offset 0). (b) Otherwise it executes `SELECT MAX(idColumn) FROM table` and
returns the converted cell plus 1. (c) In the single-writer harness, after
N inserts whose ids were each allocated by the fallback itself, generateId
returns N + 1 — in particular 1 on the empty table, the base case being
the JDBC integer read of the NULL aggregate. -/
theorem generateId_strategy :
    (∀ (reg : Registry) (d : Dialect) (type : String) (db : DB) (c : Nat)
        (m : Mapping) (rs : ResultSet) (label : String) (code : Int)
        (dt : DataType) (row : Row),
      getEntityMapping reg type = Except.ok m →
      m.hasIdSequence = true → d.hasSequenceSupport = true →
      db.executeQuery (d.getSqlNextSequenceValue (m.idSequenceName.getD ""))
        = Except.ok rs →
      rs.cols.head? = some (label, code) →
      d.getColumnTypeByJdbcNumber code = some dt →
      rs.rows.head? = some row →
      (generateId reg d type db c).1 =
        Except.ok (jsAdd (dt.get row label) 0))
    ∧ (∀ (reg : Registry) (d : Dialect) (type : String) (db : DB) (c : Nat)
        (m : Mapping) (rs : ResultSet) (label : String) (code : Int)
        (dt : DataType) (row : Row),
      getEntityMapping reg type = Except.ok m →
      (m.hasIdSequence && d.hasSequenceSupport) = false →
      db.executeQuery (maxIdSql d m) = Except.ok rs →
      rs.cols.head? = some (label, code) →
      d.getColumnTypeByJdbcNumber code = some dt →
      rs.rows.head? = some row →
      (generateId reg d type db c).1 =
        Except.ok (jsAdd (dt.get row label) 1))
    ∧ (∀ n : Nat,
      (generateId regPerson (mkDialect false) "Person" (tableDb (iterIds n)) 0).1
        = Except.ok (Value.int ((n : Int) + 1))) := by
  refine ⟨?_, ?_, ?_⟩
  · intro reg d type db c m rs label code dt row hm hseq hsup hq hcol hdt hrow
    simp only [generateId, hm, hseq, hsup, Bool.and_self, if_true, hq, hcol,
      hdt, hrow]
  · intro reg d type db c m rs label code dt row hm hfb hq hcol hdt hrow
    simp only [generateId, hm, hfb, Bool.false_eq_true, if_false, hq, hcol,
      hdt, hrow]
  · intro n
    rw [generateId_tableDb, nextFallbackId_iterIds]

/-- Witness for C2: (a) a sequence-backed type on a sequence-capable
dialect draws 42 from the sequence oracle; (b) the fallback over a table
whose MAX is 7 returns 8; (c) after 3 single-writer inserts the fallback
returns 4 (and on the empty table it returns the base case 1). -/
theorem generateId_strategy_witness :
    (generateId regSeq (mkDialect true) "Evt" seqDb 0).1 =
      Except.ok (Value.int 42) ∧
    (generateId regBare (mkDialect false) "T" maxDb7 0).1 =
      Except.ok (Value.int 8) ∧
    (generateId regPerson (mkDialect false) "Person" (tableDb (iterIds 3)) 0).1
      = Except.ok (Value.int 4) ∧
    (generateId regPerson (mkDialect false) "Person" (tableDb (iterIds 0)) 0).1
      = Except.ok (Value.int 1) := by
  refine ⟨?_, ?_, ?_, ?_⟩
  · exact generateId_strategy.1 regSeq (mkDialect true) "Evt" seqDb 0 mSeq
      { cols := [("SEQ", 4)], rows := [[("SEQ", Value.int 42)]] }
      "SEQ" 4 intHandler [("SEQ", Value.int 42)] rfl rfl rfl rfl rfl rfl rfl
  · exact generateId_strategy.2.1 regBare (mkDialect false) "T" maxDb7 0 mBare
      { cols := [("M", 4)], rows := [[("M", Value.int 7)]] }
      "M" 4 intHandler [("M", Value.int 7)] rfl rfl rfl rfl rfl rfl
  · exact generateId_strategy.2.2 3
  · exact generateId_strategy.2.2 0

/-- The insert collection loop in closed form: appended to its accumulators,
it contributes exactly the included properties' column entries and quoted
identifiers, in mapping order. -/
theorem insLoop_spec (d : Dialect) (e : Row) :
    ∀ (props : List (String × PropertySpec)) (cols : List InsCol)
      (idents : List String),
    insLoop d e props cols idents =
      (cols ++ (includedProps e props).map
        (fun np => { name := np.1, dataType := np.2.type.bind d.getColumnType }),
       idents ++ (includedProps e props).map
        (fun np => d.quote (colOf np.1 np.2))) := by
  intro props
  induction props with
  | nil =>
      intro cols idents
      simp [insLoop, includedProps]
  | cons np rest ih =>
      obtain ⟨n, p⟩ := np
      intro cols idents
      by_cases h : (isNullish (rowGet e (colOf n p)) && p.defaultVal.isSome) = true
      · simp only [insLoop, includedProps, List.filter_cons, h, Bool.not_true,
          Bool.false_eq_true, if_false, if_true]
        exact ih cols idents
      · rw [Bool.not_eq_true] at h
        simp only [insLoop, includedProps, List.filter_cons, h, Bool.not_false,
          Bool.false_eq_true, if_false, if_true, List.map_cons]
        rw [ih]
        simp [includedProps]

/-- The insert binding loop over columns that are not the id column and all
carry a handler: every column binds `entity[propertyName]` null-aware. -/
theorem bindInsert_mapped (e : Row) (idName : String) (nid : Value)
    (dtOf : String × PropertySpec → DataType) :
    ∀ (l : List (String × PropertySpec)), (∀ np ∈ l, np.1 ≠ idName) →
    bindInsert e idName nid
      (l.map (fun np => { name := np.1, dataType := some (dtOf np) })) =
      Except.ok (l.map (fun np => bindOf (dtOf np) (rowGet e np.1))) := by
  intro l
  induction l with
  | nil => intro _; rfl
  | cons np rest ih =>
      intro hn
      simp only [List.map_cons, bindInsert]
      rw [if_neg (hn np (List.mem_cons_self np rest))]
      rw [ih (fun x hx => hn x (List.mem_cons_of_mem np hx))]

/-- C3: the parameterized INSERT built by insert has as its column list
exactly the id column followed by every mapped property except those whose
value (read at the mapped column name) is null/undefined while the mapping
declares a default; and the value bound at each included property's
parameter position is the entity's value for that property name,
null/undefined binding as SQL NULL through the handler's native type code,
the id position binding the generated id. (Hypotheses: the dialect resolves
`integer` and every property type, and no property is named like the id
column — the source's binding loop dispatches on that name.) -/
theorem insert_column_list_and_bindings (d : Dialect) (m : Mapping) (e : Row)
    (nid : Value) (dtInt : DataType) (dtOf : String × PropertySpec → DataType)
    (hInt : d.getColumnType "integer" = some dtInt)
    (hdt : ∀ np ∈ m.properties, np.2.type.bind d.getColumnType = some (dtOf np))
    (hname : ∀ np ∈ m.properties, np.1 ≠ m.idColumnName) :
    insLoop d e m.properties
        [{ name := m.idColumnName, dataType := d.getColumnType "integer" }]
        [d.quote m.idColumnName] =
      ({ name := m.idColumnName, dataType := some dtInt } ::
        (includedProps e m.properties).map
          (fun np => { name := np.1, dataType := some (dtOf np) }),
       d.quote m.idColumnName ::
        (includedProps e m.properties).map
          (fun np => d.quote (colOf np.1 np.2)))
    ∧ bindInsert e m.idColumnName nid
        (insLoop d e m.properties
          [{ name := m.idColumnName, dataType := d.getColumnType "integer" }]
          [d.quote m.idColumnName]).1 =
      Except.ok (Bound.val nid ::
        (includedProps e m.properties).map
          (fun np => bindOf (dtOf np) (rowGet e np.1))) := by
  have hmem : ∀ np, np ∈ includedProps e m.properties → np ∈ m.properties :=
    fun np hnp => (List.mem_filter.mp hnp).1
  have h1 :
      insLoop d e m.properties
          [{ name := m.idColumnName, dataType := d.getColumnType "integer" }]
          [d.quote m.idColumnName] =
        ({ name := m.idColumnName, dataType := some dtInt } ::
          (includedProps e m.properties).map
            (fun np => { name := np.1, dataType := some (dtOf np) }),
         d.quote m.idColumnName ::
          (includedProps e m.properties).map
            (fun np => d.quote (colOf np.1 np.2))) := by
    rw [insLoop_spec]
    rw [hInt]
    simp only [List.singleton_append]
    refine congrArg₂ Prod.mk ?_ rfl
    refine congrArg₂ List.cons rfl ?_
    exact List.map_congr_left (fun np hnp => by rw [hdt np (hmem np hnp)])
  refine ⟨h1, ?_⟩
  rw [h1]
  simp only [bindInsert]
  rw [if_pos trivial]
  rw [bindInsert_mapped e m.idColumnName nid dtOf (includedProps e m.properties)
    (fun np hnp => hname np (hmem np hnp))]

/-- Witness for C3: with `title` supplied and `note` absent-but-defaulted,
the INSERT column list is exactly `"id", "title"` (note omitted) and the
bound parameters are the generated id 3 and the string `T1`. -/
theorem insert_column_list_and_bindings_witness :
    (insLoop (mkDialect false) eMix mMix.properties
        [{ name := mMix.idColumnName,
           dataType := (mkDialect false).getColumnType "integer" }]
        [(mkDialect false).quote mMix.idColumnName]).2 =
      ["\"id\"", "\"title\""] ∧
    bindInsert eMix mMix.idColumnName (Value.int 3)
      (insLoop (mkDialect false) eMix mMix.properties
        [{ name := mMix.idColumnName,
           dataType := (mkDialect false).getColumnType "integer" }]
        [(mkDialect false).quote mMix.idColumnName]).1 =
      Except.ok [Bound.val (Value.int 3), Bound.val (Value.str "T1")] := by
  have hdt : ∀ np ∈ mMix.properties,
      np.2.type.bind (mkDialect false).getColumnType = some strHandler := by
    intro np hnp
    simp only [mMix, List.mem_cons, List.not_mem_nil, or_false] at hnp
    rcases hnp with rfl | rfl <;> rfl
  have hname : ∀ np ∈ mMix.properties, np.1 ≠ mMix.idColumnName := by
    intro np hnp
    simp only [mMix, List.mem_cons, List.not_mem_nil, or_false] at hnp
    rcases hnp with rfl | rfl <;> decide
  obtain ⟨ha, hb⟩ := insert_column_list_and_bindings (mkDialect false) mMix
    eMix (Value.int 3) intHandler (fun _ => strHandler) rfl hdt hname
  constructor
  · rw [ha]
    rfl
  · rw [hb]
    rfl

/-- insert has exactly two outcomes: a thrown error with the entity's key,
the transaction and the assignment log untouched, or a success in which the
generated id was assigned to the key exactly once and the key (carrying
that id) was appended to the transaction's inserted accumulator. -/
theorem insert_outcomes (reg : Registry) (d : Dialect) (ent : StorableEnt)
    (tx : Option Transaction) (db : DB) (cG cI : Nat) :
    (∃ e, (insert reg d ent tx db cG cI).res = Except.error e ∧
      (insert reg d ent tx db cG cI).key = ent.key ∧
      (insert reg d ent tx db cG cI).tx = tx ∧
      (insert reg d ent tx db cG cI).assigns = [])
    ∨ (∃ n nid, (insert reg d ent tx db cG cI).res = Except.ok n ∧
      (generateId reg d ent.key.ktype db cG).1 = Except.ok nid ∧
      (insert reg d ent tx db cG cI).key =
        { ktype := ent.key.ktype, id := nid } ∧
      (insert reg d ent tx db cG cI).assigns = [nid] ∧
      (insert reg d ent tx db cG cI).tx = tx.map (fun t =>
        { t with inserted := t.inserted ++
          [{ ktype := ent.key.ktype, id := nid }] })) := by
  unfold insert
  rcases hm : getEntityMapping reg ent.key.ktype with e | m
  · exact Or.inl ⟨e, rfl, rfl, rfl, rfl⟩
  · dsimp only
    rcases hg : generateId reg d ent.key.ktype db cG with ⟨ge | nid, gt⟩
    · exact Or.inl ⟨ge, rfl, rfl, rfl, rfl⟩
    · dsimp only
      rcases hb : bindInsert ent.data m.idColumnName nid
        (insLoop d ent.data m.properties
          [{ name := m.idColumnName,
             dataType := d.getColumnType "integer" }]
          [d.quote m.idColumnName]).1 with be | params
      · exact Or.inl ⟨be, rfl, rfl, rfl, rfl⟩
      · dsimp only
        rcases he : db.executeUpdate
            (insertSqlOf d m
              (insLoop d ent.data m.properties
                [{ name := m.idColumnName,
                   dataType := d.getColumnType "integer" }]
                [d.quote m.idColumnName]).2) params with ee | n
        · exact Or.inl ⟨ee, rfl, rfl, rfl, rfl⟩
        · exact Or.inr ⟨n, nid, rfl, rfl, rfl, rfl, rfl⟩

/-- update never assigns to the entity's Key, whatever the outcome. -/
theorem update_never_assigns (reg : Registry) (d : Dialect)
    (ent : StorableEnt) (tx : Option Transaction) (db : DB) (cU : Nat) :
    (update reg d ent tx db cU).key = ent.key ∧
    (update reg d ent tx db cU).assigns = [] := by
  unfold update
  constructor
  all_goals
    split
  any_goals rfl
  all_goals
    split
  any_goals rfl
  all_goals
    split
  all_goals rfl

/-- Counterexample for C5 as stated: a *direct* insert call on an entity
whose Key already has an id (5) reassigns that Key to the freshly generated
id (8) — the core does mutate a Key that already has an id. -/
theorem insert_mutates_persistent_key :
    entPersistent.key.isPersistent = true ∧
    (insert regBare (mkDialect false) entPersistent none maxDb7 0 1).assigns =
      [Value.int 8] ∧
    (insert regBare (mkDialect false) entPersistent none maxDb7 0 1).key.id =
      Value.int 8 ∧
    Value.int 8 ≠ Value.int 5 := by
  refine ⟨rfl, rfl, rfl, ?_⟩
  intro h
  injection h with h8
  exact absurd h8 (by decide)

/-- C5 (amended): insert assigns the generated id to the entity's Key
exactly once per successful call and not at all on failure; update never
touches the Key; and save with a persistent Key dispatches to update, so
along the save path no Key that already has an id is ever mutated. A
*direct* insert on an already-persistent Key, however, would reassign it
(see the counterexample). -/
theorem key_finalized_once (reg : Registry) (d : Dialect) :
    (∀ (ent : StorableEnt) (tx : Option Transaction) (db : DB) (cG cI : Nat)
        (n : Int),
      (insert reg d ent tx db cG cI).res = Except.ok n →
      ∃ nid, (generateId reg d ent.key.ktype db cG).1 = Except.ok nid ∧
        (insert reg d ent tx db cG cI).assigns = [nid] ∧
        (insert reg d ent tx db cG cI).key =
          { ktype := ent.key.ktype, id := nid })
    ∧ (∀ (ent : StorableEnt) (tx : Option Transaction) (db : DB) (cG cI : Nat)
        (e : String),
      (insert reg d ent tx db cG cI).res = Except.error e →
      (insert reg d ent tx db cG cI).assigns = [] ∧
      (insert reg d ent tx db cG cI).key = ent.key)
    ∧ (∀ (ent : StorableEnt) (tx : Option Transaction) (db : DB) (cU : Nat),
      (update reg d ent tx db cU).key = ent.key ∧
      (update reg d ent tx db cU).assigns = [])
    ∧ (∀ (saveFn : SaveOracle) (props : List (String × Value))
        (ent : StorableEnt) (tx : Option Transaction) (db : DB) (cG cO : Nat),
      ent.key.isPersistent = true →
      (save saveFn reg d props ent tx db cG cO).key = ent.key ∧
      (save saveFn reg d props ent tx db cG cO).assigns = []) := by
  refine ⟨?_, ?_, ?_, ?_⟩
  · intro ent tx db cG cI n hres
    rcases insert_outcomes reg d ent tx db cG cI with
      ⟨e, he, _, _, _⟩ | ⟨n', nid, hok, hgen, hkey, hasg, _⟩
    · rw [hres] at he
      exact absurd he (by simp)
    · exact ⟨nid, hgen, hasg, hkey⟩
  · intro ent tx db cG cI e hres
    rcases insert_outcomes reg d ent tx db cG cI with
      ⟨e', he, hkey, _, hasg⟩ | ⟨n', nid, hok, _, _, _, _⟩
    · exact ⟨hasg, hkey⟩
    · rw [hres] at hok
      exact absurd hok (by simp)
  · intro ent tx db cU
    exact update_never_assigns reg d ent tx db cU
  · intro saveFn props ent tx db cG cO hp
    unfold save
    rw [hp]
    simp only [if_true]
    exact update_never_assigns reg d
      { ent with data := (updateEntity saveFn props ent.data).1 } tx db cO

/-- Witness for C5 (amended): a successful insert on a transient key
assigns exactly the generated id 8 once; a save of an already-persistent
entity leaves its key untouched with no assignment. -/
theorem key_finalized_once_witness :
    (insert regBare (mkDialect false) entTransient none maxDb7 0 1).res =
      Except.ok 1 ∧
    (∃ nid,
      (generateId regBare (mkDialect false) entTransient.key.ktype maxDb7 0).1
        = Except.ok nid ∧
      (insert regBare (mkDialect false) entTransient none maxDb7 0 1).assigns
        = [nid] ∧
      (insert regBare (mkDialect false) entTransient none maxDb7 0 1).key =
        { ktype := entTransient.key.ktype, id := nid }) ∧
    ((save saveFn9 regBare (mkDialect false) [] entPersistent none maxDb7 0 1).key
        = entPersistent.key ∧
      (save saveFn9 regBare (mkDialect false) [] entPersistent none maxDb7 0 1).assigns
        = []) :=
  ⟨rfl,
   (key_finalized_once regBare (mkDialect false)).1 entTransient none maxDb7
     0 1 1 rfl,
   (key_finalized_once regBare (mkDialect false)).2.2.2 saveFn9 []
     entPersistent none maxDb7 0 1 rfl⟩

/-- Reading back the property just written (JS assignment semantics). -/
theorem rowGet_rowSet_self (r : Row) (n : String) (v : Value) :
    rowGet (rowSet r n v) n = some v := by
  induction r with
  | nil => simp [rowSet, rowGet]
  | cons kv rest ih =>
      obtain ⟨k, w⟩ := kv
      by_cases h : k = n
      · simp [rowSet, rowGet, h]
      · simp [rowSet, rowGet, h, ih]

/-- Writing one property leaves every other property unchanged. -/
theorem rowGet_rowSet_ne (r : Row) (m n : String) (v : Value) (h : m ≠ n) :
    rowGet (rowSet r m v) n = rowGet r n := by
  induction r with
  | nil => simp [rowSet, rowGet, h]
  | cons kv rest ih =>
      obtain ⟨k, w⟩ := kv
      by_cases hk : k = m
      · subst hk
        simp [rowSet, rowGet, h]
      · by_cases hn : k = n
        · subst hn
          simp [rowSet, rowGet, hk, Ne.symm h]
        · simp [rowSet, rowGet, hk, hn, ih]

/-- updateEntity's fold splits into the entity writes and the accumulated
saved-storables log. -/
theorem updateEntity_components (f : SaveOracle) :
    ∀ (props : List (String × Value)) (e : Row) (s : List (String × Value)),
    props.foldl (fun acc np =>
      (rowSet acc.1 np.1 (resolveOne f np.2), acc.2 ++ savedOf np.2)) (e, s) =
      (applyProps f props e, s ++ savedAll props) := by
  intro props
  induction props with
  | nil =>
      intro e s
      simp [applyProps, savedAll]
  | cons np rest ih =>
      intro e s
      simp only [List.foldl_cons]
      rw [ih]
      simp [applyProps, savedAll, List.append_assoc]

/-- A property name not written by applyProps reads as before. -/
theorem rowGet_applyProps_notmem (f : SaveOracle) :
    ∀ (props : List (String × Value)) (e : Row) (n : String),
    n ∉ props.map Prod.fst → rowGet (applyProps f props e) n = rowGet e n := by
  intro props
  induction props with
  | nil => intro e n _; rfl
  | cons np rest ih =>
      intro e n hn
      simp only [List.map_cons, List.mem_cons] at hn
      push_neg at hn
      obtain ⟨h1, h2⟩ := hn
      show rowGet (applyProps f rest (rowSet e np.1 (resolveOne f np.2))) n = _
      rw [ih _ n h2, rowGet_rowSet_ne _ _ _ _ (fun hh => h1 hh.symm)]

/-- With pairwise distinct property names, every property of the bag reads
back from the written entity as its resolved value. -/
theorem rowGet_applyProps_mem (f : SaveOracle) :
    ∀ (props : List (String × Value)) (e : Row) (np : String × Value),
    (props.map Prod.fst).Nodup → np ∈ props →
    rowGet (applyProps f props e) np.1 = some (resolveOne f np.2) := by
  intro props
  induction props with
  | nil => intro e np _ h; cases h
  | cons hd tl ih =>
      intro e np hnd hmem
      simp only [List.map_cons, List.nodup_cons] at hnd
      obtain ⟨hhd, htl⟩ := hnd
      show rowGet (applyProps f tl (rowSet e hd.1 (resolveOne f hd.2))) np.1 = _
      rcases List.mem_cons.mp hmem with heq | hmem'
      · subst heq
        rw [rowGet_applyProps_notmem f tl _ np.1 hhd]
        exact rowGet_rowSet_self e np.1 _
      · exact ih _ np htl hmem'

/-- C7: save first resolves nested persistables and then dispatches. With
pairwise distinct property names: every property value reads back from the
updated entity as its resolved value — a Storable is persisted and replaced
by its Key, an Array is mapped one level replacing Storable elements by
their Keys, everything else is copied; the storables persisted are exactly
those encountered, in order; and save then calls update on the resolved
entity when its Key is persistent and insert when it is transient. -/
theorem save_resolves_and_dispatches (saveFn : SaveOracle)
    (props : List (String × Value)) (hnd : (props.map Prod.fst).Nodup) :
    (∀ np ∈ props, ∀ e : Row,
      rowGet (updateEntity saveFn props e).1 np.1 =
        some (resolveOne saveFn np.2))
    ∧ (∀ e : Row, (updateEntity saveFn props e).2 = savedAll props)
    ∧ (∀ (reg : Registry) (d : Dialect) (ent : StorableEnt)
        (tx : Option Transaction) (db : DB) (cG cO : Nat),
      (ent.key.isPersistent = true →
        save saveFn reg d props ent tx db cG cO =
          update reg d
            { ent with data := (updateEntity saveFn props ent.data).1 }
            tx db cO)
      ∧ (ent.key.isPersistent = false →
        save saveFn reg d props ent tx db cG cO =
          insert reg d
            { ent with data := (updateEntity saveFn props ent.data).1 }
            tx db cG cO)) := by
  have hsplit : ∀ e : Row, updateEntity saveFn props e =
      (applyProps saveFn props e, savedAll props) := by
    intro e
    unfold updateEntity
    rw [updateEntity_components]
    rw [List.nil_append]
  refine ⟨?_, ?_, ?_⟩
  · intro np hnp e
    rw [hsplit e]
    exact rowGet_applyProps_mem saveFn props e np hnd hnp
  · intro e
    rw [hsplit e]
  · intro reg d ent tx db cG cO
    constructor
    · intro h
      unfold save
      rw [h]
      simp only [if_true]
    · intro h
      unfold save
      rw [h]
      simp only [Bool.false_eq_true, if_false]

/-- Witness for C7: the storable under `a` is persisted (logged) and
replaced by its key `{S, 9}`, the plain value under `b` is copied, and save
on a persistent entity dispatches to update of the resolved entity. -/
theorem save_resolves_and_dispatches_witness :
    rowGet (updateEntity saveFn9 propsAB []).1 "a" =
      some (Value.key "S" (Value.int 9)) ∧
    rowGet (updateEntity saveFn9 propsAB []).1 "b" = some (Value.int 2) ∧
    (updateEntity saveFn9 propsAB []).2 = [("S", Value.null)] ∧
    save saveFn9 regBare (mkDialect false) propsAB entPersistent none maxDb7
        0 1 =
      update regBare (mkDialect false)
        { entPersistent with
          data := (updateEntity saveFn9 propsAB entPersistent.data).1 }
        none maxDb7 1 := by
  refine ⟨?_, ?_, ?_, ?_⟩
  · exact (save_resolves_and_dispatches saveFn9 propsAB (by decide)).1
      ("a", Value.storable "S" Value.null) (by simp [propsAB]) []
  · exact (save_resolves_and_dispatches saveFn9 propsAB (by decide)).1
      ("b", Value.int 2) (by simp [propsAB]) []
  · exact (save_resolves_and_dispatches saveFn9 propsAB (by decide)).2.1 []
  · exact ((save_resolves_and_dispatches saveFn9 propsAB (by decide)).2.2
      regBare (mkDialect false) entPersistent none maxDb7 0 1).1 rfl

/-- generateId's connection trace is empty (unregistered type, thrown before
acquiring) or exactly acquire/use/use/close of its own connection. -/
theorem generateId_trace_shape (reg : Registry) (d : Dialect) (type : String)
    (db : DB) (c : Nat) :
    (generateId reg d type db c).2 = [] ∨
    (generateId reg d type db c).2 =
      [ConnEvent.acquire c, ConnEvent.use c, ConnEvent.use c,
       ConnEvent.close c] := by
  unfold generateId
  split
  · exact Or.inl rfl
  · dsimp only
    split
    · exact Or.inr rfl
    · split
      · exact Or.inr rfl
      · split
        · exact Or.inr rfl
        · split <;> exact Or.inr rfl

/-- C9: executed against a transaction, insert, update and remove append
the affected Key to the transaction's inserted/updated/deleted accumulator
respectively on successful statement execution, reuse the transaction's
connection for all statement work, and never close it (insert's internal
generateId opens and closes its own pooled connection `cG`). -/
theorem tx_accumulates_and_reuses_connection :
    (∀ (reg : Registry) (d : Dialect) (db : DB) (ent : StorableEnt)
        (t : Transaction) (cG cI : Nat) (m : Mapping) (nid : Value)
        (tGen : List ConnEvent) (params : List Bound) (n : Int),
      getEntityMapping reg ent.key.ktype = Except.ok m →
      generateId reg d ent.key.ktype db cG = (Except.ok nid, tGen) →
      bindInsert ent.data m.idColumnName nid
        (insLoop d ent.data m.properties
          [{ name := m.idColumnName, dataType := d.getColumnType "integer" }]
          [d.quote m.idColumnName]).1 = Except.ok params →
      db.executeUpdate
        (insertSqlOf d m
          (insLoop d ent.data m.properties
            [{ name := m.idColumnName, dataType := d.getColumnType "integer" }]
            [d.quote m.idColumnName]).2) params = Except.ok n →
      (insert reg d ent (some t) db cG cI).res = Except.ok n ∧
      (insert reg d ent (some t) db cG cI).tx =
        some { t with inserted := t.inserted ++
          [{ ktype := ent.key.ktype, id := nid }] } ∧
      (insert reg d ent (some t) db cG cI).trace =
        tGen ++ [ConnEvent.use t.conn, ConnEvent.use t.conn,
          ConnEvent.use t.conn, ConnEvent.use t.conn, ConnEvent.use t.conn] ∧
      (cG ≠ t.conn →
        closesConn t.conn (insert reg d ent (some t) db cG cI).trace = false))
    ∧ (∀ (reg : Registry) (d : Dialect) (db : DB) (ent : StorableEnt)
        (t : Transaction) (cU : Nat) (m : Mapping) (params : List Bound)
        (n : Int),
      getEntityMapping reg ent.key.ktype = Except.ok m →
      bindUpdate ent.data (m.properties.map (fun np =>
        { name := np.1, dataType := np.2.type.bind d.getColumnType })) =
        Except.ok params →
      db.executeUpdate (updateSqlOf d m ent.key.id) params = Except.ok n →
      (update reg d ent (some t) db cU).res = Except.ok n ∧
      (update reg d ent (some t) db cU).tx =
        some { t with updated := t.updated ++ [ent.key] } ∧
      (update reg d ent (some t) db cU).trace =
        [ConnEvent.use t.conn, ConnEvent.use t.conn, ConnEvent.use t.conn,
         ConnEvent.use t.conn, ConnEvent.use t.conn] ∧
      closesConn t.conn (update reg d ent (some t) db cU).trace = false)
    ∧ (∀ (reg : Registry) (d : Dialect) (db : DB) (key : Key)
        (t : Transaction) (cR : Nat) (m : Mapping) (dt : DataType) (n : Int),
      getEntityMapping reg key.ktype = Except.ok m →
      d.getColumnType "integer" = some dt →
      db.executeUpdate (removeSqlOf d m) [Bound.val key.id] = Except.ok n →
      (remove reg d key (some t) db cR).res = Except.ok n ∧
      (remove reg d key (some t) db cR).tx =
        some { t with deleted := t.deleted ++ [key] } ∧
      (remove reg d key (some t) db cR).trace =
        [ConnEvent.use t.conn, ConnEvent.use t.conn, ConnEvent.use t.conn,
         ConnEvent.use t.conn, ConnEvent.use t.conn] ∧
      closesConn t.conn (remove reg d key (some t) db cR).trace = false) := by
  refine ⟨?_, ?_, ?_⟩
  · intro reg d db ent t cG cI m nid tGen params n hm hgen hbind hexec
    have htGen : closesConn t.conn tGen = false ∨ cG = t.conn := by
      rcases generateId_trace_shape reg d ent.key.ktype db cG with hs | hs <;>
        rw [hgen] at hs <;> dsimp only at hs <;> subst hs
      · exact Or.inl rfl
      · by_cases hc : cG = t.conn
        · exact Or.inr hc
        · refine Or.inl ?_
          simp [closesConn, hc]
    unfold insert
    rw [hm]
    dsimp only
    rw [hgen]
    dsimp only
    rw [hbind]
    dsimp only
    rw [hexec]
    refine ⟨rfl, rfl, ?_, ?_⟩
    · simp [connSetup, connOf, connTeardown]
    · intro hne
      rcases htGen with hcl | hc
      · simp only [closesConn] at hcl
        simp [closesConn, List.any_append, connSetup, connOf, connTeardown,
          hne, hcl]
      · exact absurd hc hne
  · intro reg d db ent t cU m params n hm hbind hexec
    unfold update
    rw [hm]
    dsimp only
    rw [hbind]
    dsimp only
    rw [hexec]
    refine ⟨rfl, rfl, ?_, ?_⟩
    · simp [connSetup, connOf, connTeardown]
    · simp [closesConn, connSetup, connOf, connTeardown]
  · intro reg d db key t cR m dt n hm hInt hexec
    unfold remove
    rw [hm]
    dsimp only
    rw [hInt]
    dsimp only
    rw [hexec]
    refine ⟨rfl, rfl, ?_, ?_⟩
    · simp [connSetup, connOf, connTeardown]
    · simp [closesConn, connSetup, connOf, connTeardown]

/-- Witness for C9: against transaction tx3 (connection 3), a successful
insert/update/remove appends the affected key to the matching accumulator
and never closes connection 3. -/
theorem tx_accumulates_and_reuses_connection_witness :
    (insert regBare (mkDialect false) entTransient (some tx3) maxDb7 0 1).tx =
      some
        { conn := 3, inserted := [{ ktype := "T", id := Value.int 8 }],
          updated := [], deleted := [] } ∧
    closesConn 3
      (insert regBare (mkDialect false) entTransient (some tx3) maxDb7 0 1).trace
      = false ∧
    (update regBare (mkDialect false) entPersistent (some tx3) maxDb7 4).tx =
      some { conn := 3, inserted := [], updated := [key5], deleted := [] } ∧
    (remove regBare (mkDialect false) key5 (some tx3) maxDb7 4).tx =
      some { conn := 3, inserted := [], updated := [], deleted := [key5] } := by
  have hi := tx_accumulates_and_reuses_connection.1 regBare (mkDialect false)
    maxDb7 entTransient tx3 0 1 mBare (Value.int 8)
    [ConnEvent.acquire 0, ConnEvent.use 0, ConnEvent.use 0, ConnEvent.close 0]
    [Bound.val (Value.int 8)] 1 rfl rfl rfl rfl
  have hu := tx_accumulates_and_reuses_connection.2.1 regBare
    (mkDialect false) maxDb7 entPersistent tx3 4 mBare [] 1 rfl rfl rfl
  have hr := tx_accumulates_and_reuses_connection.2.2 regBare
    (mkDialect false) maxDb7 key5 tx3 4 mBare intHandler 1 rfl rfl rfl
  exact ⟨hi.2.1, hi.2.2.2 (by decide), hu.2.1, hr.2.1⟩

/-- C10: when the prepared statement's executeUpdate throws, insert, update
and remove propagate the exception unchanged and leave the observable state
untouched: the entity's Key keeps its previous id (no assignment is
logged), and none of the transaction's accumulators gains an element — both
the key assignment and the accumulator push sit after executeUpdate in the
source. -/
theorem exec_failure_leaves_state_unchanged :
    (∀ (reg : Registry) (d : Dialect) (db : DB) (ent : StorableEnt)
        (tx : Option Transaction) (cG cI : Nat) (m : Mapping) (nid : Value)
        (tGen : List ConnEvent) (params : List Bound) (msg : String),
      getEntityMapping reg ent.key.ktype = Except.ok m →
      generateId reg d ent.key.ktype db cG = (Except.ok nid, tGen) →
      bindInsert ent.data m.idColumnName nid
        (insLoop d ent.data m.properties
          [{ name := m.idColumnName, dataType := d.getColumnType "integer" }]
          [d.quote m.idColumnName]).1 = Except.ok params →
      db.executeUpdate
        (insertSqlOf d m
          (insLoop d ent.data m.properties
            [{ name := m.idColumnName, dataType := d.getColumnType "integer" }]
            [d.quote m.idColumnName]).2) params = Except.error msg →
      (insert reg d ent tx db cG cI).res = Except.error msg ∧
      (insert reg d ent tx db cG cI).key = ent.key ∧
      (insert reg d ent tx db cG cI).tx = tx ∧
      (insert reg d ent tx db cG cI).assigns = [])
    ∧ (∀ (reg : Registry) (d : Dialect) (db : DB) (ent : StorableEnt)
        (tx : Option Transaction) (cU : Nat) (m : Mapping)
        (params : List Bound) (msg : String),
      getEntityMapping reg ent.key.ktype = Except.ok m →
      bindUpdate ent.data (m.properties.map (fun np =>
        { name := np.1, dataType := np.2.type.bind d.getColumnType })) =
        Except.ok params →
      db.executeUpdate (updateSqlOf d m ent.key.id) params =
        Except.error msg →
      (update reg d ent tx db cU).res = Except.error msg ∧
      (update reg d ent tx db cU).key = ent.key ∧
      (update reg d ent tx db cU).tx = tx ∧
      (update reg d ent tx db cU).assigns = [])
    ∧ (∀ (reg : Registry) (d : Dialect) (db : DB) (key : Key)
        (tx : Option Transaction) (cR : Nat) (m : Mapping) (dt : DataType)
        (msg : String),
      getEntityMapping reg key.ktype = Except.ok m →
      d.getColumnType "integer" = some dt →
      db.executeUpdate (removeSqlOf d m) [Bound.val key.id] =
        Except.error msg →
      (remove reg d key tx db cR).res = Except.error msg ∧
      (remove reg d key tx db cR).tx = tx) := by
  refine ⟨?_, ?_, ?_⟩
  · intro reg d db ent tx cG cI m nid tGen params msg hm hgen hbind hexec
    unfold insert
    rw [hm]
    dsimp only
    rw [hgen]
    dsimp only
    rw [hbind]
    dsimp only
    rw [hexec]
    exact ⟨rfl, rfl, rfl, rfl⟩
  · intro reg d db ent tx cU m params msg hm hbind hexec
    unfold update
    rw [hm]
    dsimp only
    rw [hbind]
    dsimp only
    rw [hexec]
    exact ⟨rfl, rfl, rfl, rfl⟩
  · intro reg d db key tx cR m dt msg hm hInt hexec
    unfold remove
    rw [hm]
    dsimp only
    rw [hInt]
    dsimp only
    rw [hexec]
    exact ⟨rfl, rfl⟩

/-- Witness for C10: with a driver that throws `boom` on executeUpdate, a
transactional insert propagates the error, keeps the key transient, and
leaves the transaction's accumulators empty; update and remove likewise. -/
theorem exec_failure_leaves_state_unchanged_witness :
    (insert regBare (mkDialect false) entTransient (some tx3) failDb 0 1).res =
      Except.error "boom" ∧
    (insert regBare (mkDialect false) entTransient (some tx3) failDb 0 1).key =
      entTransient.key ∧
    (insert regBare (mkDialect false) entTransient (some tx3) failDb 0 1).tx =
      some tx3 ∧
    (insert regBare (mkDialect false) entTransient (some tx3) failDb 0 1).assigns
      = [] ∧
    (update regBare (mkDialect false) entPersistent (some tx3) failDb 4).tx =
      some tx3 ∧
    (remove regBare (mkDialect false) key5 (some tx3) failDb 4).tx =
      some tx3 := by
  have hi := exec_failure_leaves_state_unchanged.1 regBare (mkDialect false)
    failDb entTransient (some tx3) 0 1 mBare (Value.int 8)
    [ConnEvent.acquire 0, ConnEvent.use 0, ConnEvent.use 0, ConnEvent.close 0]
    [Bound.val (Value.int 8)] "boom" rfl rfl rfl rfl
  have hu := exec_failure_leaves_state_unchanged.2.1 regBare (mkDialect false)
    failDb entPersistent (some tx3) 4 mBare [] "boom" rfl rfl rfl
  have hr := exec_failure_leaves_state_unchanged.2.2 regBare (mkDialect false)
    failDb key5 (some tx3) 4 mBare intHandler "boom" rfl rfl rfl
  exact ⟨hi.1, hi.2.1, hi.2.2.1, hi.2.2.2, hu.2.2.1, hr.2⟩

end RingoSql
